import Mathlib

/-!
Verification of the Android performance-hint API contract
(`include/android/performance_hint.h`).

The repository material is the public NDK header: two opaque handle types,
the `SessionHint` enumeration, and six function declarations whose
behavioral contract is given in their documentation comments and in the
specification.  The backing implementation (the performance-hint manager
service) is not part of the provided sources, so the operations below are
modelled from the specification's contract table, while the enumeration
and the declared return codes are taken directly from the header.
-/

/-- The POSIX `EINVAL` error number (invalid argument), the failure code the
header documents for non-positive durations. -/
def EINVAL : Int := 22

/-- The POSIX `EPIPE` error number (broken pipe), the failure code the header
documents for failed communication with the system service. -/
def EPIPE : Int := 32

/-- The `SessionHint` enumeration from the header: four hints with explicit
integer values 0 through 3. -/
inductive SessionHint where
  | CPU_LOAD_UP
  | CPU_LOAD_DOWN
  | CPU_LOAD_RESET
  | CPU_LOAD_RESUME
deriving DecidableEq

/-- The explicit integer value each `SessionHint` enumerator carries in the
header (`CPU_LOAD_UP = 0`, `CPU_LOAD_DOWN = 1`, `CPU_LOAD_RESET = 2`,
`CPU_LOAD_RESUME = 3`). -/
def SessionHint.toInt : SessionHint → Int
  | .CPU_LOAD_UP => 0
  | .CPU_LOAD_DOWN => 1
  | .CPU_LOAD_RESET => 2
  | .CPU_LOAD_RESUME => 3

/-- Modelled from the spec: the state behind an `APerformanceHintSession`
handle.  The backing service implementation is not in the sources; the spec
describes a session as a group of threads "with a mutable target-duration
attribute" that "exists from creation to close".  `targetWorkDurationNanos`
is the mutable target duration (a signed 64-bit nanosecond count, modelled
as `Int`); `isOpen` records whether the session has not yet been closed. -/
structure APerformanceHintSession where
  targetWorkDurationNanos : Int
  isOpen : Bool
deriving DecidableEq

/-- Modelled from the spec: the state behind an `APerformanceHintManager`
handle.  The spec's contract table says the preferred-update-rate query
returns "a positive duration (nanoseconds)" with no failure return, so the
manager carries a positive preferred rate reported by the device software. -/
structure APerformanceHintManager where
  preferredUpdateRateNanos : Int
  preferredUpdateRate_pos : 0 < preferredUpdateRateNanos

/-- Modelled from the spec: `APerformanceHint_getPreferredUpdateRateNanos`.
The implementation is not in the sources; per the contract table it returns
the device's preferred update rate, a positive nanosecond duration, and has
no failure return. -/
def APerformanceHint_getPreferredUpdateRateNanos
    (manager : APerformanceHintManager) : Int :=
  manager.preferredUpdateRateNanos

/-- Modelled from the spec: `APerformanceHint_createSession`.  The
implementation is not in the sources; per the contract it requires a
non-empty list of thread identifiers belonging to the caller's process
thread group (`validTids` models that thread group) and a positive initial
target duration, and "returns null/absent handle on failure". -/
def APerformanceHint_createSession (validTids : List Int)
    (threadIds : List Int) (initialTargetWorkDurationNanos : Int) :
    Option APerformanceHintSession :=
  if threadIds.isEmpty then none
  else if ¬ threadIds.all (fun t => validTids.contains t) then none
  else if initialTargetWorkDurationNanos ≤ 0 then none
  else some { targetWorkDurationNanos := initialTargetWorkDurationNanos,
              isOpen := true }

/-- Modelled from the spec: `APerformanceHint_updateTargetWorkDuration`.
The implementation is not in the sources; per the header's documented
contract it returns `EINVAL` if the duration is not positive (leaving the
session unchanged), fails when the session no longer exists or the system
service is unreachable (`reachable` models the backing channel), and on
success returns 0 with the session's target duration set to the new value. -/
def APerformanceHint_updateTargetWorkDuration (reachable : Bool)
    (session : APerformanceHintSession) (targetDurationNanos : Int) :
    Int × APerformanceHintSession :=
  if targetDurationNanos ≤ 0 then (EINVAL, session)
  else if ¬ session.isOpen then (EPIPE, session)
  else if ¬ reachable then (EPIPE, session)
  else (0, { session with targetWorkDurationNanos := targetDurationNanos })

/-- Modelled from the spec: `APerformanceHint_reportActualWorkDuration`.
The implementation is not in the sources; per the header's documented
contract it returns `EINVAL` if the measured duration is not positive,
fails when the session no longer exists or the service is unreachable, and
otherwise returns 0.  Reporting does not alter the target duration. -/
def APerformanceHint_reportActualWorkDuration (reachable : Bool)
    (session : APerformanceHintSession) (actualDurationNanos : Int) :
    Int × APerformanceHintSession :=
  if actualDurationNanos ≤ 0 then (EINVAL, session)
  else if ¬ session.isOpen then (EPIPE, session)
  else if ¬ reachable then (EPIPE, session)
  else (0, session)

/-- Modelled from the spec: `APerformanceHint_sendHint`.  The implementation
is not in the sources; per the header's documented contract the hint
parameter is a plain machine integer and the declared results are `0` on
success and `EPIPE` "if communication with the system service has failed"
(also the outcome on a session whose backing channel was severed by
closing).  No `EINVAL` result is declared. -/
def APerformanceHint_sendHint (reachable : Bool)
    (session : APerformanceHintSession) (hint : Int) :
    Int × APerformanceHintSession :=
  if ¬ session.isOpen then (EPIPE, session)
  else if ¬ reachable then (EPIPE, session)
  else (0, session)

/-- Modelled from the spec: `APerformanceHint_closeSession`.  The
implementation is not in the sources; per the contract table it "releases
the session; no return value" and is assumed to always succeed, after which
the session no longer exists. -/
def APerformanceHint_closeSession
    (session : APerformanceHintSession) : APerformanceHintSession :=
  { session with isOpen := false }

/-- One step of the session lifecycle: any of the four operations applied to
a session state, with any reachability of the backing service and any
argument. -/
inductive SessionStep : APerformanceHintSession → APerformanceHintSession → Prop where
  | update (reachable : Bool) (s : APerformanceHintSession) (d : Int) :
      SessionStep s (APerformanceHint_updateTargetWorkDuration reachable s d).2
  | report (reachable : Bool) (s : APerformanceHintSession) (d : Int) :
      SessionStep s (APerformanceHint_reportActualWorkDuration reachable s d).2
  | send (reachable : Bool) (s : APerformanceHintSession) (hint : Int) :
      SessionStep s (APerformanceHint_sendHint reachable s hint).2
  | close (s : APerformanceHintSession) :
      SessionStep s (APerformanceHint_closeSession s)

/-- A session state reachable through the API: produced by a successful
`createSession` and then transformed by any sequence of operations. -/
inductive ReachableSession : APerformanceHintSession → Prop where
  | create (validTids threadIds : List Int) (d : Int)
      (s : APerformanceHintSession)
      (h : APerformanceHint_createSession validTids threadIds d = some s) :
      ReachableSession s
  | step (s s' : APerformanceHintSession)
      (h : ReachableSession s) (hs : SessionStep s s') : ReachableSession s'

/-- Session states reachable from a given state by any sequence of
operations (reflexive-transitive closure of `SessionStep`). -/
inductive ReachableFrom (s : APerformanceHintSession) : APerformanceHintSession → Prop where
  | refl : ReachableFrom s s
  | tail (s' s'' : APerformanceHintSession)
      (h : ReachableFrom s s') (hs : SessionStep s' s'') : ReachableFrom s s''

/-- Any lifecycle step keeps the target duration positive: a successful
update installs the (necessarily positive) new duration, and every other
outcome leaves the target unchanged. -/
theorem SessionStep.target_pos (s s' : APerformanceHintSession)
    (h : SessionStep s s') (hpos : 0 < s.targetWorkDurationNanos) :
    0 < s'.targetWorkDurationNanos := by
  cases h with
  | update reachable s d =>
      rw [APerformanceHint_updateTargetWorkDuration]
      split
      · exact hpos
      · split
        · exact hpos
        · split
          · exact hpos
          · simpa using lt_of_not_le (by assumption)
  | report reachable s d =>
      rw [APerformanceHint_reportActualWorkDuration]
      split
      · exact hpos
      · split
        · exact hpos
        · split
          · exact hpos
          · exact hpos
  | send reachable s hint =>
      rw [APerformanceHint_sendHint]
      split
      · exact hpos
      · split
        · exact hpos
        · exact hpos
  | close s => exact hpos

/-- C3: in every reachable session state the stored target duration is
strictly positive: creation requires a positive initial target, updates
install only positive targets, and no operation can make the stored target
non-positive. -/
theorem reachable_session_target_positive (s : APerformanceHintSession)
    (h : ReachableSession s) : 0 < s.targetWorkDurationNanos := by
  induction h with
  | create validTids threadIds d s hc =>
      rw [APerformanceHint_createSession] at hc
      split at hc
      · exact absurd hc (by simp)
      · split at hc
        · exact absurd hc (by simp)
        · split at hc
          · exact absurd hc (by simp)
          · obtain rfl : _ = s := Option.some.inj hc
            exact lt_of_not_le (by assumption)
  | step s s' _ hs ih => exact SessionStep.target_pos s s' hs ih

/-- Witness for C3: the session created with target 5 is reachable and its
target duration is positive. -/
theorem reachable_session_target_positive_witness :
    ReachableSession ⟨5, true⟩ ∧
    (0 : Int) < (⟨5, true⟩ : APerformanceHintSession).targetWorkDurationNanos :=
  ⟨ReachableSession.create [1] [1] 5 ⟨5, true⟩ (by decide),
   reachable_session_target_positive ⟨5, true⟩
     (ReachableSession.create [1] [1] 5 ⟨5, true⟩ (by decide))⟩

/-- C1: for every session and every non-positive duration, both the
update-target-work-duration and the report-actual-work-duration call fail
with `EINVAL` and leave the session state unchanged. -/
theorem nonpositive_duration_rejected_einval (reachable : Bool)
    (session : APerformanceHintSession) (d : Int) (hd : d ≤ 0) :
    APerformanceHint_updateTargetWorkDuration reachable session d
      = (EINVAL, session) ∧
    APerformanceHint_reportActualWorkDuration reachable session d
      = (EINVAL, session) := by
  rw [APerformanceHint_updateTargetWorkDuration,
      APerformanceHint_reportActualWorkDuration]
  rw [if_pos hd, if_pos hd]
  exact ⟨rfl, rfl⟩

/-- Witness for C1: duration 0 on the open session with target 5 yields
`EINVAL` and an unchanged session for both operations. -/
theorem nonpositive_duration_rejected_einval_witness :
    APerformanceHint_updateTargetWorkDuration true ⟨5, true⟩ 0
      = (EINVAL, ⟨5, true⟩) ∧
    APerformanceHint_reportActualWorkDuration true ⟨5, true⟩ 0
      = (EINVAL, ⟨5, true⟩) :=
  nonpositive_duration_rejected_einval true ⟨5, true⟩ 0 (by decide)

/-- C2: for every open session and every strictly positive duration, the
update-target-work-duration call with the backing service reachable returns
0, and afterwards the session's target duration equals the supplied
duration. -/
theorem positive_update_succeeds_sets_target
    (session : APerformanceHintSession) (d : Int)
    (hopen : session.isOpen = true) (hd : 0 < d) :
    (APerformanceHint_updateTargetWorkDuration true session d).1 = 0 ∧
    (APerformanceHint_updateTargetWorkDuration true session d).2.targetWorkDurationNanos
      = d := by
  rw [APerformanceHint_updateTargetWorkDuration]
  rw [if_neg (not_le.mpr hd), if_neg (by simp [hopen]), if_neg (by simp)]
  exact ⟨rfl, rfl⟩

/-- Witness for C2: updating the open session with target 5 to duration 7
returns 0 and leaves the target at 7. -/
theorem positive_update_succeeds_sets_target_witness :
    (APerformanceHint_updateTargetWorkDuration true ⟨5, true⟩ 7).1 = 0 ∧
    (APerformanceHint_updateTargetWorkDuration true ⟨5, true⟩ 7).2.targetWorkDurationNanos
      = 7 :=
  positive_update_succeeds_sets_target ⟨5, true⟩ 7 rfl (by decide)

/-- C4: creating a session with an empty thread list, or with a thread
identifier outside the caller's thread group, returns no session handle. -/
theorem create_session_empty_or_invalid_tids_none
    (validTids threadIds : List Int) (d : Int)
    (h : threadIds = [] ∨ ∃ t ∈ threadIds, t ∉ validTids) :
    APerformanceHint_createSession validTids threadIds d = none := by
  rw [APerformanceHint_createSession]
  rcases h with rfl | ⟨t, ht, hv⟩
  · rfl
  · split
    · rfl
    · rw [if_pos]
      simp only [List.all_eq_true]
      intro hall
      exact hv (by simpa using hall t ht)

/-- Witness for C4: creating with the empty thread list yields no handle. -/
theorem create_session_empty_or_invalid_tids_none_witness :
    APerformanceHint_createSession [1, 2] [] 5 = none :=
  create_session_empty_or_invalid_tids_none [1, 2] [] 5 (Or.inl rfl)

/-- C5: for every open session and each of the four enumerated hints, the
send-hint operation returns 0 when the backing channel is intact and
`EPIPE` when the backing channel is severed. -/
theorem send_hint_success_or_epipe_by_channel
    (session : APerformanceHintSession) (h : SessionHint)
    (hopen : session.isOpen = true) :
    (APerformanceHint_sendHint true session h.toInt).1 = 0 ∧
    (APerformanceHint_sendHint false session h.toInt).1 = EPIPE := by
  constructor
  · simp [APerformanceHint_sendHint, hopen]
  · simp [APerformanceHint_sendHint, hopen]

/-- Witness for C5: sending `CPU_LOAD_UP` to the open session with target 5
returns 0 over an intact channel and `EPIPE` over a severed one. -/
theorem send_hint_success_or_epipe_by_channel_witness :
    (APerformanceHint_sendHint true ⟨5, true⟩ SessionHint.CPU_LOAD_UP.toInt).1 = 0 ∧
    (APerformanceHint_sendHint false ⟨5, true⟩ SessionHint.CPU_LOAD_UP.toInt).1 = EPIPE :=
  send_hint_success_or_epipe_by_channel ⟨5, true⟩ SessionHint.CPU_LOAD_UP rfl

/-- The communication-failure code differs from the invalid-argument code. -/
theorem EPIPE_ne_EINVAL : EPIPE ≠ EINVAL := by decide

/-- The success code differs from the invalid-argument code. -/
theorem zero_ne_EINVAL : (0 : Int) ≠ EINVAL := by decide

/-- C7: for every manager handle the preferred-update-rate query returns a
strictly positive nanosecond duration; the operation has no failure
return. -/
theorem preferred_update_rate_positive (manager : APerformanceHintManager) :
    0 < APerformanceHint_getPreferredUpdateRateNanos manager :=
  manager.preferredUpdateRate_pos

/-- C9: the session-hint type has exactly the four values load-up, load-down,
load-reset, load-resume with consecutive integer codes 0, 1, 2, 3, and the
codes distinguish the values. -/
theorem session_hint_closed_enum_codes :
    SessionHint.CPU_LOAD_UP.toInt = 0 ∧
    SessionHint.CPU_LOAD_DOWN.toInt = 1 ∧
    SessionHint.CPU_LOAD_RESET.toInt = 2 ∧
    SessionHint.CPU_LOAD_RESUME.toInt = 3 ∧
    (∀ h : SessionHint,
      h = SessionHint.CPU_LOAD_UP ∨ h = SessionHint.CPU_LOAD_DOWN ∨
      h = SessionHint.CPU_LOAD_RESET ∨ h = SessionHint.CPU_LOAD_RESUME) ∧
    (∀ h h' : SessionHint, h.toInt = h'.toInt → h = h') := by
  refine ⟨rfl, rfl, rfl, rfl, ?_, ?_⟩
  · intro h
    cases h
    · exact Or.inl rfl
    · exact Or.inr (Or.inl rfl)
    · exact Or.inr (Or.inr (Or.inl rfl))
    · exact Or.inr (Or.inr (Or.inr rfl))
  · intro h h' he
    cases h <;> cases h' <;> first | rfl | exact absurd he (by decide)

/-- C10: for every session and every integer hint argument, including values
outside the four enumerated codes, the send-hint result is 0 or `EPIPE` and
is never `EINVAL`: the hint argument is not validated at this interface. -/
theorem send_hint_never_einval (reachable : Bool)
    (session : APerformanceHintSession) (hint : Int) :
    ((APerformanceHint_sendHint reachable session hint).1 = 0 ∨
     (APerformanceHint_sendHint reachable session hint).1 = EPIPE) ∧
    (APerformanceHint_sendHint reachable session hint).1 ≠ EINVAL := by
  rw [APerformanceHint_sendHint]
  split
  · exact ⟨Or.inr rfl, EPIPE_ne_EINVAL⟩
  · split
    · exact ⟨Or.inr rfl, EPIPE_ne_EINVAL⟩
    · exact ⟨Or.inl rfl, zero_ne_EINVAL⟩

/-- Counterexample for C6: the send-hint operation can never surface the
invalid-argument code `EINVAL`, so the three operations do not surface both
error kinds uniformly. -/
theorem send_hint_einval_impossible :
    ¬ ∃ (reachable : Bool) (session : APerformanceHintSession) (hint : Int),
        (APerformanceHint_sendHint reachable session hint).1 = EINVAL := by
  rintro ⟨reachable, session, hint, hc⟩
  rw [APerformanceHint_sendHint] at hc
  split at hc
  · exact absurd hc EPIPE_ne_EINVAL
  · split at hc
    · exact absurd hc EPIPE_ne_EINVAL
    · exact absurd hc zero_ne_EINVAL

/-- C6 (amended): the two duration operations can each surface both `EINVAL`
and `EPIPE`, while send-hint can surface `EPIPE` but never `EINVAL`. -/
theorem duration_ops_two_errors_send_hint_epipe_only :
    (∃ s d, (APerformanceHint_updateTargetWorkDuration true s d).1 = EINVAL) ∧
    (∃ s d, (APerformanceHint_updateTargetWorkDuration false s d).1 = EPIPE) ∧
    (∃ s d, (APerformanceHint_reportActualWorkDuration true s d).1 = EINVAL) ∧
    (∃ s d, (APerformanceHint_reportActualWorkDuration false s d).1 = EPIPE) ∧
    (∃ s h, (APerformanceHint_sendHint false s h).1 = EPIPE) ∧
    (∀ (r : Bool) (s : APerformanceHintSession) (h : Int),
      (APerformanceHint_sendHint r s h).1 ≠ EINVAL) := by
  refine ⟨⟨⟨5, true⟩, 0, by decide⟩, ⟨⟨5, true⟩, 7, by decide⟩,
          ⟨⟨5, true⟩, 0, by decide⟩, ⟨⟨5, true⟩, 7, by decide⟩,
          ⟨⟨5, true⟩, 0, by decide⟩, ?_⟩
  intro r s h hc
  rw [APerformanceHint_sendHint] at hc
  split at hc
  · exact absurd hc EPIPE_ne_EINVAL
  · split at hc
    · exact absurd hc EPIPE_ne_EINVAL
    · exact absurd hc zero_ne_EINVAL

/-- No lifecycle step reopens a closed session. -/
theorem SessionStep.closed_preserved (s s' : APerformanceHintSession)
    (h : SessionStep s s') (hc : s.isOpen = false) : s'.isOpen = false := by
  cases h with
  | update reachable s d =>
      rw [APerformanceHint_updateTargetWorkDuration]
      split
      · exact hc
      · split
        · exact hc
        · split
          · exact hc
          · simpa using hc
  | report reachable s d =>
      rw [APerformanceHint_reportActualWorkDuration]
      split
      · exact hc
      · split
        · exact hc
        · split
          · exact hc
          · exact hc
  | send reachable s hint =>
      rw [APerformanceHint_sendHint]
      split
      · exact hc
      · split
        · exact hc
        · exact hc
  | close s => rfl

/-- Every state reachable from a closed session is still closed. -/
theorem ReachableFrom.stays_closed (s s' : APerformanceHintSession)
    (h : ReachableFrom s s') (hc : s.isOpen = false) : s'.isOpen = false := by
  induction h with
  | refl => exact hc
  | tail t t' _ hs ih => exact SessionStep.closed_preserved t t' hs ih

/-- The communication-failure code differs from the success code. -/
theorem EPIPE_ne_zero : EPIPE ≠ 0 := by decide

/-- On a closed session every operation returns a non-zero code. -/
theorem closed_ops_nonzero (reachable : Bool)
    (s : APerformanceHintSession) (d hint : Int) (hc : s.isOpen = false) :
    (APerformanceHint_updateTargetWorkDuration reachable s d).1 ≠ 0 ∧
    (APerformanceHint_reportActualWorkDuration reachable s d).1 ≠ 0 ∧
    (APerformanceHint_sendHint reachable s hint).1 ≠ 0 := by
  refine ⟨?_, ?_, ?_⟩
  · rw [APerformanceHint_updateTargetWorkDuration]
    split
    · exact fun he => absurd he.symm zero_ne_EINVAL
    · rw [if_pos (by simp [hc])]
      exact EPIPE_ne_zero
  · rw [APerformanceHint_reportActualWorkDuration]
    split
    · exact fun he => absurd he.symm zero_ne_EINVAL
    · rw [if_pos (by simp [hc])]
      exact EPIPE_ne_zero
  · rw [APerformanceHint_sendHint]
    rw [if_pos (by simp [hc])]
    exact EPIPE_ne_zero

/-- C8: close-session always yields a closed session, and on every state
subsequently reachable from it through any sequence of operations, none of
update-target-work-duration, report-actual-work-duration, or send-hint ever
returns the success code 0. -/
theorem closed_session_ops_never_succeed (s0 s : APerformanceHintSession)
    (h : ReachableFrom (APerformanceHint_closeSession s0) s)
    (reachable : Bool) (d hint : Int) :
    (APerformanceHint_closeSession s0).isOpen = false ∧
    (APerformanceHint_updateTargetWorkDuration reachable s d).1 ≠ 0 ∧
    (APerformanceHint_reportActualWorkDuration reachable s d).1 ≠ 0 ∧
    (APerformanceHint_sendHint reachable s hint).1 ≠ 0 :=
  ⟨rfl, closed_ops_nonzero reachable s d hint
    (ReachableFrom.stays_closed (APerformanceHint_closeSession s0) s h rfl)⟩

/-- Witness for C8: after closing the open session with target 5, the three
operations (with duration 7, hint 0, over an intact channel) all return a
non-zero code. -/
theorem closed_session_ops_never_succeed_witness :
    (APerformanceHint_closeSession ⟨5, true⟩).isOpen = false ∧
    (APerformanceHint_updateTargetWorkDuration true
      (APerformanceHint_closeSession ⟨5, true⟩) 7).1 ≠ 0 ∧
    (APerformanceHint_reportActualWorkDuration true
      (APerformanceHint_closeSession ⟨5, true⟩) 7).1 ≠ 0 ∧
    (APerformanceHint_sendHint true
      (APerformanceHint_closeSession ⟨5, true⟩) 0).1 ≠ 0 :=
  closed_session_ops_never_succeed ⟨5, true⟩ (APerformanceHint_closeSession ⟨5, true⟩)
    ReachableFrom.refl true 7 0
